import Mathlib

/-!
Shallow embedding of the `service-monitor` core (src/service_monitor) in Lean 4.

Conventions of the embedding:
* timestamps are modelled as `Int` seconds (the Python code uses `datetime`
  values with subtraction; all comparisons in the code are order comparisons
  of timestamps, which integer seconds capture exactly);
* Python `dict[str, str]` values (insertion ordered) are modelled as
  association lists `List (String × String)` with Python `dict` semantics:
  updating an existing key keeps its position, a new key is appended;
* the storage map `dict[str, ServiceInfo]` is modelled as a `List ServiceInfo`
  keyed by `service_name` in insertion order;
* `datetime.now` is made explicit: every operation that reads the clock takes
  a `now : Int` parameter;
* `Optional[T]` is `Option T`.
-/

/-- `ServiceStatus` enumeration from `models.py`. -/
inductive ServiceStatus where
  | UP
  | DOWN
  | DEGRADED
  | UNKNOWN
deriving DecidableEq, Repr

/-- `ServiceInfo` model from `models.py` (timestamps as `Int` seconds). -/
structure ServiceInfo where
  service_name : String
  status : ServiceStatus
  last_check_in : Int
  message : Option String
  metadata : List (String × String)
  check_in_count : Nat
deriving DecidableEq, Repr

/-- `ServiceCheckIn` request model from `models.py`. -/
structure ServiceCheckIn where
  service_name : String
  status : ServiceStatus
  message : Option String
  metadata : List (String × String)
deriving DecidableEq, Repr

/-- Python `d[k] = v` on an insertion-ordered dict: replace in place if the
key exists, append otherwise. -/
def dictInsert (d : List (String × String)) (k v : String) : List (String × String) :=
  if d.any (fun p => p.1 = k) then
    d.map (fun p => if p.1 = k then (k, v) else p)
  else
    d ++ [(k, v)]

/-- Python `d.update(new)`: fold `dictInsert` over the new pairs in order. -/
def dictUpdate (d new : List (String × String)) : List (String × String) :=
  new.foldl (fun acc p => dictInsert acc p.1 p.2) d

/-- `InMemoryStorage` from `storage.py`: the `_services` dict in insertion
order. -/
structure InMemoryStorage where
  services : List ServiceInfo
deriving DecidableEq, Repr

/-- `InMemoryStorage.get_service`: dict lookup by name. -/
def get_service (st : InMemoryStorage) (service_name : String) : Option ServiceInfo :=
  st.services.find? (fun s => s.service_name = service_name)

/-- `InMemoryStorage.get_service_count`. -/
def get_service_count (st : InMemoryStorage) : Nat :=
  st.services.length

/-- `InMemoryStorage.get_all_services`. -/
def get_all_services (st : InMemoryStorage) : List ServiceInfo :=
  st.services

/-- `InMemoryStorage.get_services_by_status`. -/
def get_services_by_status (st : InMemoryStorage) (status : ServiceStatus) : List ServiceInfo :=
  st.services.filter (fun s => s.status = status)

/-- `InMemoryStorage.update_service` from `storage.py` (lines 23-92), with the
clock made explicit. Returns the new store, the updated/created record, and
the previous status when (and only when) it differs from the new one.
Note the code performs no validation of `service_name`. -/
def update_service (st : InMemoryStorage) (now : Int) (service_name : String)
    (status : ServiceStatus) (message : Option String)
    (metadata : List (String × String)) :
    InMemoryStorage × ServiceInfo × Option ServiceStatus :=
  match st.services.find? (fun s => s.service_name = service_name) with
  | some service =>
      let previous_status := service.status
      -- `if metadata:` in Python skips the merge for a None or empty dict
      let newMetadata :=
        if metadata.isEmpty then service.metadata
        else dictUpdate service.metadata metadata
      let updated : ServiceInfo :=
        { service with
          status := status
          last_check_in := now
          message := message
          check_in_count := service.check_in_count + 1
          metadata := newMetadata }
      let services := st.services.map
        (fun s => if s.service_name = service_name then updated else s)
      (⟨services⟩, updated,
        if previous_status ≠ status then some previous_status else none)
  | none =>
      let service : ServiceInfo :=
        { service_name := service_name
          status := status
          last_check_in := now
          message := message
          metadata := metadata
          check_in_count := 1 }
      -- `previous_status` is None here, and `None != status` is true in
      -- Python, so `previous_status if previous_status != status else None`
      -- returns None
      (⟨st.services ++ [service]⟩, service, none)

/-- `InMemoryStorage.remove_service` from `storage.py` (lines 120-134). -/
def remove_service (st : InMemoryStorage) (service_name : String) :
    InMemoryStorage × Bool :=
  if st.services.any (fun s => s.service_name = service_name) then
    (⟨st.services.filter (fun s => ¬(s.service_name = service_name))⟩, true)
  else
    (st, false)

/-- The staleness test of `check_stale_services`: status in {UP, DEGRADED}
and `last_check_in < timeout_threshold` where
`timeout_threshold = now - timeout_seconds` (a strict comparison). -/
def isStale (now timeout_seconds : Int) (s : ServiceInfo) : Bool :=
  (s.status = ServiceStatus.UP ∨ s.status = ServiceStatus.DEGRADED) ∧
    s.last_check_in < now - timeout_seconds

/-- The stale message the source formats: No check-in for Ns (timeout: Ts),
where N is the truncated elapsed seconds and T the timeout. -/
def staleMessage (now timeout_seconds : Int) (s : ServiceInfo) : String :=
  "No check-in for " ++ toString (now - s.last_check_in) ++
    "s (timeout: " ++ toString timeout_seconds ++ "s)"

/-- The in-place demotion a stale record receives. -/
def staleDemote (now timeout_seconds : Int) (s : ServiceInfo) : ServiceInfo :=
  { s with
    status := ServiceStatus.DOWN
    message := some (staleMessage now timeout_seconds s) }

/-- `InMemoryStorage.check_stale_services` from `storage.py` (lines 159-199),
with the clock made explicit: demotes each stale record to DOWN in place and
returns the list of `(record after demotion, previous status)` pairs. -/
def check_stale_services (st : InMemoryStorage) (now timeout_seconds : Int) :
    InMemoryStorage × List (ServiceInfo × ServiceStatus) :=
  (⟨st.services.map
      (fun s => if isStale now timeout_seconds s then staleDemote now timeout_seconds s else s)⟩,
   st.services.filterMap
      (fun s => if isStale now timeout_seconds s
                then some (staleDemote now timeout_seconds s, s.status) else none))

/-! ## Notifications (`notifications.py`) -/

/-- `NotificationHistory` model from `notifications.py`. -/
structure NotificationHistory where
  service_name : String
  last_notification : Int
  last_status : ServiceStatus
  notification_count : Nat
deriving DecidableEq, Repr

/-- The notification-related configuration fields from `config.py` used by
`_should_send_notification`. `cooldown_minutes` is kept in minutes as in the
source. -/
structure NotificationConfig where
  enabled : Bool
  send_recovery_notifications : Bool
  cooldown_minutes : Int
deriving DecidableEq, Repr

/-- `EmailNotificationService`: its `_notification_history` dict in insertion
order. -/
structure EmailNotificationService where
  notification_history : List NotificationHistory
deriving DecidableEq, Repr

/-- `self._notification_history.get(name)`. -/
def getHistory (svc : EmailNotificationService) (service_name : String) :
    Option NotificationHistory :=
  svc.notification_history.find? (fun h => h.service_name = service_name)

/-- `EmailNotificationService._should_send_notification` from
`notifications.py` (lines 42-92), with the clock explicit. The source
compares `(now - last_notification).total_seconds() / 60 < cooldown_minutes`;
over exact arithmetic with `now` in seconds this is
`now - last_notification < cooldown_minutes * 60`. -/
def should_send_notification (cfg : NotificationConfig)
    (svc : EmailNotificationService) (now : Int) (service : ServiceInfo)
    (previous_status : Option ServiceStatus) : Bool :=
  if cfg.enabled = false then false
  else
    let history := getHistory svc service.service_name
    -- if no previous status provided, fall back to the history entry
    let previous_status :=
      match previous_status, history with
      | none, some h => some h.last_status
      | p, _ => p
    -- Python `previous_status == service.status` (None == status is False)
    if previous_status = some service.status then false
    else
      let is_recovery : Bool :=
        (previous_status = some ServiceStatus.DOWN ∨
         previous_status = some ServiceStatus.DEGRADED) ∧
          service.status = ServiceStatus.UP
      let is_alert : Bool :=
        service.status = ServiceStatus.DOWN ∨ service.status = ServiceStatus.DEGRADED
      if is_alert then
        -- cooldown applies ONLY to alert notifications
        match history with
        | some h =>
            if now - h.last_notification < cfg.cooldown_minutes * 60 then false
            else true
        | none => true
      else if is_recovery ∧ cfg.send_recovery_notifications then true
      else false

/-- The history write-back of
`EmailNotificationService.send_service_notification` (lines 309-322). -/
def recordNotification (svc : EmailNotificationService) (now : Int)
    (service : ServiceInfo) : EmailNotificationService :=
  match getHistory svc service.service_name with
  | some _ =>
      ⟨svc.notification_history.map (fun h =>
        if h.service_name = service.service_name then
          { h with
            last_notification := now
            last_status := service.status
            notification_count := h.notification_count + 1 }
        else h)⟩
  | none =>
      ⟨svc.notification_history ++
        [{ service_name := service.service_name
           last_notification := now
           last_status := service.status
           notification_count := 1 }]⟩

/-- `EmailNotificationService.send_service_notification` (lines 288-330),
abstracting delivery: returns the new gate state and whether the gate decided
to send. -/
def send_service_notification (cfg : NotificationConfig)
    (svc : EmailNotificationService) (now : Int) (service : ServiceInfo)
    (previous_status : Option ServiceStatus) :
    EmailNotificationService × Bool :=
  if should_send_notification cfg svc now service previous_status then
    (recordNotification svc now service, true)
  else
    (svc, false)

/-- `EmailNotificationService.clear_notification_history` (lines 336-343). -/
def clear_notification_history (svc : EmailNotificationService)
    (service_name : Option String) : EmailNotificationService :=
  match service_name with
  | some n => ⟨svc.notification_history.filter (fun h => ¬(h.service_name = n))⟩
  | none => ⟨[]⟩

/-! ## Application layer (`main.py`) -/

/-- The application-level mutable state of `main.py`: the storage and the
notification service instances. -/
structure AppState where
  storage : InMemoryStorage
  notifications : EmailNotificationService
deriving DecidableEq, Repr

/-- The `DELETE /services/{service_name}` handler `remove_service` in
`main.py` (lines 357-374): it calls only `storage.remove_service` and raises
404 on `false`; the notification service is not touched. -/
def app_remove_service (app : AppState) (service_name : String) :
    AppState × Bool :=
  let r := remove_service app.storage service_name
  ({ app with storage := r.1 }, r.2)

/-- Python `not name.strip()`: true iff the name is empty or consists only
of whitespace characters. -/
def isBlankName (s : String) : Bool :=
  s.data.all Char.isWhitespace

/-- The `POST /services/checkin` handler `service_checkin` in `main.py`
(lines 262-316), with the clock explicit. Returns an error for an
empty/whitespace-only name; otherwise updates the store and, only when a
previous status was returned, invokes the notification gate. The `Bool` in
the result records whether the gate was invoked. -/
def service_checkin (cfg : NotificationConfig) (app : AppState) (now : Int)
    (checkin : ServiceCheckIn) :
    Except String (AppState × ServiceInfo × Bool) :=
  if isBlankName checkin.service_name then
    Except.error "Service name cannot be empty"
  else
    let r := update_service app.storage now checkin.service_name checkin.status
      checkin.message checkin.metadata
    match r.2.2 with
    | some previous_status =>
        let n := send_service_notification cfg app.notifications now r.2.1
          (some previous_status)
        Except.ok (⟨r.1, n.1⟩, r.2.1, true)
    | none =>
        Except.ok (⟨r.1, app.notifications⟩, r.2.1, false)

/-! ## Active poller (`monitored_services.py`) -/

/-- `MonitoredService` configuration model from `monitored_services.py`. -/
structure MonitoredService where
  name : String
  health_url : String
  check_interval_seconds : Int
  timeout_seconds : Int
  expected_status_code : Nat
  enabled : Bool
  check_response_body : Bool
  expected_body_content : Option String
deriving DecidableEq, Repr

/-- The outcome of one HTTP probe, abstracting the network: either a response
(status code and body text) or one of the exception classes caught by
`check_service_health`. -/
inductive ProbeOutcome where
  | response (status_code : Nat) (body : String)
  | timeoutErr
  | connectErr
  | unexpectedErr (msg : String)
deriving DecidableEq, Repr

/-- Python `pat in body` substring test, on character lists. -/
def substrAux (pat : List Char) : List Char → Bool
  | [] => pat.isEmpty
  | b :: bs => pat.isPrefixOf (b :: bs) || substrAux pat bs

/-- Python `pat in body` on strings. -/
def strContains (body pat : String) : Bool :=
  substrAux pat.data body.data

/-- The classification logic of
`MonitoredServiceManager.check_service_health` (lines 162-240), over an
abstracted probe outcome. Returns `(status, message)`; the metadata dict of
the source (URL, timestamp, timing) carries no classification logic and is
omitted. -/
def check_service_health (service : MonitoredService) (outcome : ProbeOutcome) :
    ServiceStatus × String :=
  match outcome with
  | ProbeOutcome.response status_code body =>
      if ¬(status_code = service.expected_status_code) then
        (ServiceStatus.DEGRADED,
         "HTTP " ++ toString status_code ++ " (expected " ++
           toString service.expected_status_code ++ ")")
      else if service.check_response_body &&
          -- Python truthiness of `expected_body_content`: non-None, non-empty
          (match service.expected_body_content with
           | some c => !c.isEmpty
           | none => false) then
        match service.expected_body_content with
        | some c =>
            if strContains body c = false then
              (ServiceStatus.DEGRADED, "Response body missing expected content")
            else
              (ServiceStatus.UP, "Health check passed (" ++ toString status_code ++ ")")
        | none =>
            (ServiceStatus.UP, "Health check passed (" ++ toString status_code ++ ")")
      else
        (ServiceStatus.UP, "Health check passed (" ++ toString status_code ++ ")")
  | ProbeOutcome.timeoutErr =>
      (ServiceStatus.DOWN,
       "Health check timed out after " ++ toString service.timeout_seconds ++ "s")
  | ProbeOutcome.connectErr =>
      (ServiceStatus.DOWN, "Cannot connect to service")
  | ProbeOutcome.unexpectedErr msg =>
      (ServiceStatus.DOWN, "Unexpected error: " ++ msg)

/-- The predicate "`sub` occurs as a substring of `msg`", stated by explicit
decomposition; used to phrase "message containing X" properties. -/
def MsgContains (msg sub : String) : Prop :=
  ∃ pre post, msg = pre ++ sub ++ post

/-! ## Helper lemmas -/

theorem find?_append_of_none {α : Type} (p : α → Bool) :
    ∀ (l₁ : List α) (l₂ : List α), l₁.find? p = none →
      (l₁ ++ l₂).find? p = l₂.find? p
  | [], _, _ => rfl
  | a :: t, l₂, h => by
      rw [List.find?_cons] at h
      rw [List.cons_append, List.find?_cons]
      cases hpa : p a with
      | true => rw [hpa] at h; exact absurd h (by simp)
      | false => rw [hpa] at h; exact find?_append_of_none p t l₂ h

theorem any_eq_isSome_find? {α : Type} (p : α → Bool) :
    ∀ (l : List α), l.any p = (l.find? p).isSome
  | [] => rfl
  | a :: t => by
      rw [List.any_cons, List.find?_cons]
      cases hpa : p a with
      | true => rfl
      | false => simp [any_eq_isSome_find? p t]

theorem find?_filter_not {α : Type} (p : α → Bool) :
    ∀ (l : List α), (l.filter (fun a => !p a)).find? p = none
  | [] => rfl
  | a :: t => by
      rw [List.filter_cons]
      cases hpa : p a with
      | true =>
          simp only [hpa, Bool.not_true, Bool.false_eq_true, if_false]
          exact find?_filter_not p t
      | false =>
          simp only [hpa, Bool.not_false, if_true]
          rw [List.find?_cons, hpa]
          exact find?_filter_not p t

theorem find?_map_replace (name : String) (upd : ServiceInfo)
    (hupd : upd.service_name = name) :
    ∀ (l : List ServiceInfo) (srv : ServiceInfo),
      l.find? (fun s => s.service_name = name) = some srv →
      (l.map (fun s => if s.service_name = name then upd else s)).find?
        (fun s => s.service_name = name) = some upd
  | [], _, h => by simp [List.find?] at h
  | a :: t, srv, h => by
      by_cases ha : a.service_name = name
      · simp [List.find?_cons, ha, hupd]
      · rw [List.find?_cons, decide_eq_false ha] at h
        rw [List.map_cons, if_neg ha, List.find?_cons, decide_eq_false ha]
        exact find?_map_replace name upd hupd t srv h

/-- After any `update_service` call, a lookup of the name returns exactly the
record the call returned. -/
theorem update_get_self (st : InMemoryStorage) (now : Int) (name : String)
    (status : ServiceStatus) (message : Option String)
    (metadata : List (String × String)) :
    get_service (update_service st now name status message metadata).1 name =
      some (update_service st now name status message metadata).2.1 := by
  unfold update_service get_service
  cases hfind : st.services.find? (fun s => s.service_name = name) with
  | none =>
      simp only [hfind]
      rw [find?_append_of_none _ _ _ hfind]
      simp [List.find?_cons]
  | some service =>
      have hname : service.service_name = name := by
        have := List.find?_some hfind
        simpa using this
      simp only [hfind]
      apply find?_map_replace name _ _ st.services service hfind
      exact hname

/-- Field values of the record returned by `update_service` that do not
depend on whether the record existed. -/
theorem update_ret_fields (st : InMemoryStorage) (now : Int) (name : String)
    (status : ServiceStatus) (message : Option String)
    (metadata : List (String × String)) :
    (update_service st now name status message metadata).2.1.service_name = name ∧
    (update_service st now name status message metadata).2.1.status = status ∧
    (update_service st now name status message metadata).2.1.last_check_in = now ∧
    (update_service st now name status message metadata).2.1.message = message := by
  unfold update_service
  cases hfind : st.services.find? (fun s => s.service_name = name) with
  | none => simp [hfind]
  | some service =>
      have hname : service.service_name = name := by
        have := List.find?_some hfind
        simpa using this
      simp [hfind, hname]

/-- Behaviour of `update_service` on an existing record: counter increment,
metadata merge, previous-status return value. -/
theorem update_exist_spec (st : InMemoryStorage) (now : Int) (name : String)
    (status : ServiceStatus) (message : Option String)
    (metadata : List (String × String)) (s : ServiceInfo)
    (h : get_service st name = some s) :
    (update_service st now name status message metadata).2.1.check_in_count =
      s.check_in_count + 1 ∧
    (update_service st now name status message metadata).2.1.metadata =
      (if metadata.isEmpty then s.metadata else dictUpdate s.metadata metadata) ∧
    (update_service st now name status message metadata).2.2 =
      (if s.status ≠ status then some s.status else none) := by
  unfold get_service at h
  unfold update_service
  simp [h]

/-- Behaviour of `update_service` on a fresh name: the record is created with
counter 1 and the given metadata, and no previous status is returned. -/
theorem update_fresh_spec (st : InMemoryStorage) (now : Int) (name : String)
    (status : ServiceStatus) (message : Option String)
    (metadata : List (String × String))
    (h : get_service st name = none) :
    (update_service st now name status message metadata).2.1.check_in_count = 1 ∧
    (update_service st now name status message metadata).2.1.metadata = metadata ∧
    (update_service st now name status message metadata).2.2 = none := by
  unfold get_service at h
  unfold update_service
  simp [h]

/-! ## Witness fixtures -/

/-- A concrete UP record used by several witnesses. -/
def svcW : ServiceInfo :=
  { service_name := "svc", status := ServiceStatus.UP, last_check_in := 0,
    message := none, metadata := [], check_in_count := 1 }

/-- A store holding just `svcW`. -/
def stW : InMemoryStorage := ⟨[svcW]⟩

/-- A concrete record carrying a stored message. -/
def svcM : ServiceInfo :=
  { service_name := "svc", status := ServiceStatus.UP, last_check_in := 0,
    message := some "old message", metadata := [], check_in_count := 3 }

/-- A store holding just `svcM`. -/
def stM : InMemoryStorage := ⟨[svcM]⟩

/-- A concrete notification configuration: enabled, recovery notifications
on, 5-minute cooldown. -/
def cfgW : NotificationConfig :=
  { enabled := true, send_recovery_notifications := true, cooldown_minutes := 5 }

/-! ## Claim theorems -/

/-- C1 counterexample: calling `update_service` directly with the empty name
does not fail and does create a record — the store's record count changes
(the storage layer performs no name validation). -/
theorem C1_counterexample :
    get_service (update_service ⟨[]⟩ 0 "" ServiceStatus.UP none []).1 "" =
      some { service_name := "", status := ServiceStatus.UP, last_check_in := 0,
             message := none, metadata := [], check_in_count := 1 } ∧
    ¬(get_service_count (update_service ⟨[]⟩ 0 "" ServiceStatus.UP none []).1 =
        get_service_count ⟨[]⟩) := by
  decide

/-- C1 (amended): the empty/whitespace-only-name rejection lives in the
check-in endpoint, not in the store: `service_checkin` fails with the
`InvalidArgument`-style error before touching the store, so no record is
created and the state is unchanged. -/
theorem C1_empty_name_rejected_at_endpoint (cfg : NotificationConfig)
    (app : AppState) (now : Int) (checkin : ServiceCheckIn)
    (hname : isBlankName checkin.service_name = true) :
    service_checkin cfg app now checkin =
      Except.error "Service name cannot be empty" := by
  unfold service_checkin
  simp [hname]

/-- Witness for C1 (amended) at a whitespace-only name. -/
theorem C1_empty_name_witness :
    service_checkin cfgW ⟨⟨[]⟩, ⟨[]⟩⟩ 0
      { service_name := "   ", status := ServiceStatus.UP,
        message := none, metadata := [] } =
      Except.error "Service name cannot be empty" :=
  C1_empty_name_rejected_at_endpoint cfgW ⟨⟨[]⟩, ⟨[]⟩⟩ 0 _ (by decide)

/-- C4: for a name already in the store, `update_service` returns the
previous status exactly when the supplied status differs from the status the
record held immediately before the call; on equality it returns none. -/
theorem C4_prev_status_iff (st : InMemoryStorage) (now : Int) (name : String)
    (status : ServiceStatus) (message : Option String)
    (metadata : List (String × String)) (s : ServiceInfo)
    (h : get_service st name = some s) :
    ((update_service st now name status message metadata).2.2 = some s.status ↔
       ¬(s.status = status)) ∧
    (s.status = status →
       (update_service st now name status message metadata).2.2 = none) := by
  have hs := (update_exist_spec st now name status message metadata s h).2.2
  rw [hs]
  by_cases heq : s.status = status <;> simp [heq]

/-- Witness for C4: updating the UP record `svcW` to DOWN returns UP;
a same-status update returns none. -/
theorem C4_witness :
    ((update_service stW 1 "svc" ServiceStatus.DOWN none []).2.2 =
        some svcW.status ↔ ¬(svcW.status = ServiceStatus.DOWN)) ∧
    (svcW.status = ServiceStatus.DOWN →
      (update_service stW 1 "svc" ServiceStatus.DOWN none []).2.2 = none) :=
  C4_prev_status_iff stW 1 "svc" ServiceStatus.DOWN none [] svcW (by decide)

/-- C5: metadata is merged, not replaced: for any fresh name, updating with
`{a:"1", b:"2"}` and then `{b:"3", c:"4"}` leaves exactly
`{a:"1", b:"3", c:"4"}`. -/
theorem C5_metadata_merge (st : InMemoryStorage) (name : String)
    (now1 now2 : Int) (h : get_service st name = none) :
    (get_service
        (update_service
          (update_service st now1 name ServiceStatus.UP none
            [("a", "1"), ("b", "2")]).1
          now2 name ServiceStatus.UP none [("b", "3"), ("c", "4")]).1
        name).map ServiceInfo.metadata =
      some [("a", "1"), ("b", "3"), ("c", "4")] := by
  have hget1 := update_get_self st now1 name ServiceStatus.UP none
    [("a", "1"), ("b", "2")]
  have hmeta1 := (update_fresh_spec st now1 name ServiceStatus.UP none
    [("a", "1"), ("b", "2")] h).2.1
  have hget2 := update_get_self
    (update_service st now1 name ServiceStatus.UP none
      [("a", "1"), ("b", "2")]).1
    now2 name ServiceStatus.UP none [("b", "3"), ("c", "4")]
  have hmeta2 := (update_exist_spec
    (update_service st now1 name ServiceStatus.UP none
      [("a", "1"), ("b", "2")]).1
    now2 name ServiceStatus.UP none [("b", "3"), ("c", "4")] _ hget1).2.1
  rw [hget2, Option.map_some', hmeta2, hmeta1]
  decide

/-- Witness for C5 on the empty store. -/
theorem C5_witness :
    (get_service
        (update_service
          (update_service ⟨[]⟩ 0 "svc" ServiceStatus.UP none
            [("a", "1"), ("b", "2")]).1
          1 "svc" ServiceStatus.UP none [("b", "3"), ("c", "4")]).1
        "svc").map ServiceInfo.metadata =
      some [("a", "1"), ("b", "3"), ("c", "4")] :=
  C5_metadata_merge ⟨[]⟩ "svc" 0 1 (by decide)

/-- C8: `remove_service` (as invoked by the delete endpoint) returns true
exactly when the record existed, the record is gone afterwards, and the
notification history is completely unchanged. -/
theorem C8_remove_service (app : AppState) (name : String) :
    ((app_remove_service app name).2 = true ↔
       (get_service app.storage name).isSome = true) ∧
    get_service (app_remove_service app name).1.storage name = none ∧
    (app_remove_service app name).1.notifications = app.notifications := by
  unfold app_remove_service remove_service get_service
  by_cases hany : app.storage.services.any (fun s => s.service_name = name) = true
  · simp only [hany, if_true]
    refine ⟨?_, ?_, trivial⟩
    · simp [← any_eq_isSome_find?, hany]
    · simp only [decide_not]
      exact find?_filter_not (fun s => decide (s.service_name = name))
        app.storage.services
  · simp only [Bool.not_eq_true] at hany
    have hfind : app.storage.services.find?
        (fun s => s.service_name = name) = none := by
      have h1 := any_eq_isSome_find?
        (fun s => decide (s.service_name = name)) app.storage.services
      rw [hany] at h1
      exact Option.not_isSome_iff_eq_none.mp (by rw [← h1]; simp)
    simp [hany, hfind]

/-- C9: the first update for a previously unknown name returns no previous
status, whatever the status supplied; consequently the check-in endpoint
does not invoke the notification gate for a brand-new service and its
notification state is unchanged. -/
theorem C9_first_update_returns_none (cfg : NotificationConfig)
    (app : AppState) (now : Int) (checkin : ServiceCheckIn)
    (hnone : get_service app.storage checkin.service_name = none) :
    (update_service app.storage now checkin.service_name checkin.status
        checkin.message checkin.metadata).2.2 = none ∧
    (isBlankName checkin.service_name = false →
      service_checkin cfg app now checkin =
        Except.ok
          (⟨(update_service app.storage now checkin.service_name checkin.status
               checkin.message checkin.metadata).1, app.notifications⟩,
           (update_service app.storage now checkin.service_name checkin.status
              checkin.message checkin.metadata).2.1, false)) := by
  have h1 := (update_fresh_spec app.storage now checkin.service_name
    checkin.status checkin.message checkin.metadata hnone).2.2
  refine ⟨h1, fun hname => ?_⟩
  unfold service_checkin
  simp [hname, h1]

/-- Witness for C9: a fresh DOWN check-in yields no transition and does not
touch the gate. -/
theorem C9_witness :
    (update_service (⟨[]⟩ : InMemoryStorage) 0 "svc" ServiceStatus.DOWN
        none []).2.2 = none ∧
    (isBlankName "svc" = false →
      service_checkin cfgW ⟨⟨[]⟩, ⟨[]⟩⟩ 0
          { service_name := "svc", status := ServiceStatus.DOWN,
            message := none, metadata := [] } =
        Except.ok
          (⟨(update_service (⟨[]⟩ : InMemoryStorage) 0 "svc"
               ServiceStatus.DOWN none []).1, ⟨[]⟩⟩,
           (update_service (⟨[]⟩ : InMemoryStorage) 0 "svc"
              ServiceStatus.DOWN none []).2.1, false)) :=
  C9_first_update_returns_none cfgW ⟨⟨[]⟩, ⟨[]⟩⟩ 0
    { service_name := "svc", status := ServiceStatus.DOWN,
      message := none, metadata := [] } (by decide)

/-- C10: every update of an existing name overwrites the stored record's
message with the supplied argument — whatever it is, including `none`. -/
theorem C10_message_overwritten (st : InMemoryStorage) (now : Int)
    (name : String) (status : ServiceStatus) (message : Option String)
    (metadata : List (String × String)) (s : ServiceInfo)
    (_h : get_service st name = some s) :
    get_service (update_service st now name status message metadata).1 name =
      some (update_service st now name status message metadata).2.1 ∧
    (update_service st now name status message metadata).2.1.message =
      message :=
  ⟨update_get_self st now name status message metadata,
   (update_ret_fields st now name status message metadata).2.2.2⟩

/-- Witness for C10: a message-less same-status update erases the previously
stored message. -/
theorem C10_witness :
    get_service (update_service stM 1 "svc" ServiceStatus.UP none []).1
        "svc" =
      some (update_service stM 1 "svc" ServiceStatus.UP none []).2.1 ∧
    (update_service stM 1 "svc" ServiceStatus.UP none []).2.1.message =
      none :=
  C10_message_overwritten stM 1 "svc" ServiceStatus.UP none [] svcM
    (by decide)

/-- The staleness test as a proposition: problem-free status in
{UP, DEGRADED} and strictly more than `timeout_seconds` elapsed. -/
theorem isStale_iff (now timeout_seconds : Int) (s : ServiceInfo) :
    isStale now timeout_seconds s = true ↔
      ((s.status = ServiceStatus.UP ∨ s.status = ServiceStatus.DEGRADED) ∧
        timeout_seconds < now - s.last_check_in) := by
  unfold isStale
  rw [decide_eq_true_eq]
  constructor <;> rintro ⟨h1, h2⟩ <;> exact ⟨h1, by omega⟩

/-- C2 counterexample: at the exact boundary `now - lastCheckIn = timeout`
(UP record, last check-in 0, now 150, timeout 150) the sweep demotes
nothing: the comparison in the code is strict. -/
theorem C2_counterexample :
    (check_stale_services stW 150 150).2 = [] ∧
    get_service (check_stale_services stW 150 150).1 "svc" = some svcW ∧
    ¬(svcW.status = ServiceStatus.DOWN) := by
  decide

/-- C2 (amended): `check_stale_services` demotes a record exactly when its
status is UP or DEGRADED and strictly more than the timeout has elapsed
(`now - lastCheckIn > timeout`); the boundary case of equality is NOT
demoted. Demoted records become DOWN with a message carrying the elapsed
seconds and the timeout and yield a transition pair; all other records are
untouched, and every transition pair stems from a demoted record. -/
theorem C2_stale_demotion (st : InMemoryStorage) (now timeout_seconds : Int)
    (s : ServiceInfo) (hs : s ∈ st.services) :
    (((s.status = ServiceStatus.UP ∨ s.status = ServiceStatus.DEGRADED) ∧
        timeout_seconds < now - s.last_check_in) →
      staleDemote now timeout_seconds s ∈
          (check_stale_services st now timeout_seconds).1.services ∧
        (staleDemote now timeout_seconds s, s.status) ∈
          (check_stale_services st now timeout_seconds).2 ∧
        (staleDemote now timeout_seconds s).status = ServiceStatus.DOWN ∧
        (staleDemote now timeout_seconds s).message =
          some (staleMessage now timeout_seconds s) ∧
        MsgContains (staleMessage now timeout_seconds s)
          (toString (now - s.last_check_in)) ∧
        MsgContains (staleMessage now timeout_seconds s)
          (toString timeout_seconds)) ∧
    (¬((s.status = ServiceStatus.UP ∨ s.status = ServiceStatus.DEGRADED) ∧
        timeout_seconds < now - s.last_check_in) →
      s ∈ (check_stale_services st now timeout_seconds).1.services) ∧
    (∀ pr ∈ (check_stale_services st now timeout_seconds).2,
      ∃ t, t ∈ st.services ∧
        ((t.status = ServiceStatus.UP ∨ t.status = ServiceStatus.DEGRADED) ∧
          timeout_seconds < now - t.last_check_in) ∧
        pr = (staleDemote now timeout_seconds t, t.status)) := by
  refine ⟨fun h => ?_, fun h => ?_, fun pr hpr => ?_⟩
  · have hb : isStale now timeout_seconds s = true :=
      (isStale_iff now timeout_seconds s).mpr h
    refine ⟨?_, ?_, rfl, rfl, ?_, ?_⟩
    · unfold check_stale_services
      have := List.mem_map_of_mem
        (fun x => if isStale now timeout_seconds x
                  then staleDemote now timeout_seconds x else x) hs
      simpa [hb] using this
    · unfold check_stale_services
      exact List.mem_filterMap.mpr ⟨s, hs, by simp [hb]⟩
    · exact ⟨"No check-in for ",
        "s (timeout: " ++ toString timeout_seconds ++ "s)",
        by simp [staleMessage, String.append_assoc]⟩
    · exact ⟨"No check-in for " ++ toString (now - s.last_check_in) ++
          "s (timeout: ", "s)",
        by simp [staleMessage, String.append_assoc]⟩
  · have hb : isStale now timeout_seconds s = false := by
      cases hb : isStale now timeout_seconds s with
      | true => exact absurd ((isStale_iff now timeout_seconds s).mp hb) h
      | false => rfl
    unfold check_stale_services
    have := List.mem_map_of_mem
      (fun x => if isStale now timeout_seconds x
                then staleDemote now timeout_seconds x else x) hs
    simpa [hb] using this
  · unfold check_stale_services at hpr
    obtain ⟨a, ha, hfa⟩ := List.mem_filterMap.mp hpr
    cases hb : isStale now timeout_seconds a with
    | false => rw [hb] at hfa; exact absurd hfa (by simp)
    | true =>
        rw [hb] at hfa
        simp only [if_true] at hfa
        exact ⟨a, ha, (isStale_iff now timeout_seconds a).mp hb,
          by rw [← Option.some_inj.mp hfa]⟩

/-- Witness for C2 (amended): one second past the timeout, the UP record is
demoted and a transition with previous status UP is emitted. -/
theorem C2_witness :
    (staleDemote 151 150 svcW, svcW.status) ∈
        (check_stale_services stW 151 150).2 ∧
      (staleDemote 151 150 svcW).status = ServiceStatus.DOWN := by
  have h := C2_stale_demotion stW 151 150 svcW (by decide)
  exact ⟨(h.1 (by decide)).2.1, (h.1 (by decide)).2.2.1⟩

/-- The arguments of one `update_service` call for a fixed name. -/
structure UpdateCall where
  now : Int
  status : ServiceStatus
  message : Option String
  metadata : List (String × String)
deriving DecidableEq, Repr

/-- The records returned by a sequence of `update_service` calls for one
name, threading the store through the calls. -/
def update_trace (st : InMemoryStorage) (name : String) :
    List UpdateCall → List ServiceInfo
  | [] => []
  | c :: cs =>
      (update_service st c.now name c.status c.message c.metadata).2.1 ::
        update_trace
          (update_service st c.now name c.status c.message c.metadata).1
          name cs

/-- Trace characterization: starting from a store where the name's counter
reads `k` (0 when absent), the counters observed along a call sequence are
`k+1, k+2, ...` and the observed check-in times are exactly the calls'
clocks. -/
theorem update_trace_spec (name : String) :
    ∀ (calls : List UpdateCall) (st : InMemoryStorage) (k : Nat),
      ((get_service st name).map ServiceInfo.check_in_count).getD 0 = k →
      (update_trace st name calls).map ServiceInfo.check_in_count =
        List.range' (k + 1) calls.length ∧
      (update_trace st name calls).map ServiceInfo.last_check_in =
        calls.map UpdateCall.now
  | [], _, _, _ => by simp [update_trace]
  | c :: cs, st, k, hk => by
      have hgetafter :=
        update_get_self st c.now name c.status c.message c.metadata
      have hcount :
          (update_service st c.now name c.status c.message
            c.metadata).2.1.check_in_count = k + 1 := by
        cases hget : get_service st name with
        | none =>
            rw [hget] at hk
            simp only [Option.map_none', Option.getD_none] at hk
            rw [(update_fresh_spec st c.now name c.status c.message
              c.metadata hget).1, ← hk]
        | some s =>
            rw [hget] at hk
            simp only [Option.map_some', Option.getD_some] at hk
            rw [(update_exist_spec st c.now name c.status c.message
              c.metadata s hget).1, hk]
      have hlast :=
        (update_ret_fields st c.now name c.status c.message c.metadata).2.2.1
      have ih := update_trace_spec name cs
        (update_service st c.now name c.status c.message c.metadata).1
        (k + 1) (by rw [hgetafter]; simp [hcount])
      refine ⟨?_, ?_⟩
      · simp only [update_trace, List.map_cons, hcount, ih.1,
          List.length_cons, List.range'_succ]
      · simp only [update_trace, List.map_cons, hlast, ih.2]

/-- C6: for a fresh name and any non-empty call sequence, the observed
check-in counters are exactly 1, 2, ..., N (so the counter after the N-th
call is N and is at least 1 from creation on), and with a non-decreasing
clock the observed `last_check_in` values are non-decreasing. -/
theorem C6_counter_and_monotonicity (st : InMemoryStorage) (name : String)
    (calls : List UpdateCall) (hnone : get_service st name = none)
    (hmono : List.Chain' (· ≤ ·) (calls.map UpdateCall.now)) :
    (update_trace st name calls).map ServiceInfo.check_in_count =
      List.range' 1 calls.length ∧
    List.Chain' (· ≤ ·)
      ((update_trace st name calls).map ServiceInfo.last_check_in) ∧
    (∀ s ∈ update_trace st name calls, 1 ≤ s.check_in_count) := by
  have h := update_trace_spec name calls st 0 (by rw [hnone]; rfl)
  refine ⟨h.1, ?_, ?_⟩
  · rw [h.2]; exact hmono
  · intro s hsmem
    have hmem : s.check_in_count ∈ List.range' 1 calls.length := by
      rw [← h.1]
      exact List.mem_map_of_mem ServiceInfo.check_in_count hsmem
    exact (List.mem_range'_1.mp hmem).1

/-- Witness for C6: two calls at clocks 0 and 5 on a fresh name observe
counters [1, 2] and non-decreasing check-in times. -/
theorem C6_witness :
    (update_trace ⟨[]⟩ "svc"
        [⟨0, ServiceStatus.UP, none, []⟩,
         ⟨5, ServiceStatus.DOWN, none, []⟩]).map
          ServiceInfo.check_in_count =
      List.range' 1 2 ∧
    List.Chain' (· ≤ ·)
      ((update_trace ⟨[]⟩ "svc"
          [⟨0, ServiceStatus.UP, none, []⟩,
           ⟨5, ServiceStatus.DOWN, none, []⟩]).map
            ServiceInfo.last_check_in) ∧
    (∀ s ∈ update_trace ⟨[]⟩ "svc"
        [⟨0, ServiceStatus.UP, none, []⟩,
         ⟨5, ServiceStatus.DOWN, none, []⟩],
      1 ≤ s.check_in_count) :=
  C6_counter_and_monotonicity ⟨[]⟩ "svc"
    [⟨0, ServiceStatus.UP, none, []⟩, ⟨5, ServiceStatus.DOWN, none, []⟩]
    (by decide) (by simp [List.chain'_cons])

/-- Additional witness fixtures for the notification gate. -/
def histW : NotificationHistory :=
  { service_name := "svc", last_notification := 0,
    last_status := ServiceStatus.DOWN, notification_count := 1 }

/-- A gate state holding just `histW`. -/
def svcHist : EmailNotificationService := ⟨[histW]⟩

/-- A DOWN record for the gated service. -/
def infoDownW : ServiceInfo :=
  { service_name := "svc", status := ServiceStatus.DOWN, last_check_in := 0,
    message := none, metadata := [], check_in_count := 2 }

/-- An UP record for the gated service. -/
def infoUpW : ServiceInfo :=
  { service_name := "svc", status := ServiceStatus.UP, last_check_in := 0,
    message := none, metadata := [], check_in_count := 2 }

/-- C3: with notifications enabled and a history entry present for the
service, the gate suppresses an alert transition arriving strictly within
the cooldown of the last notification, sends the same alert transition once
the cooldown has elapsed, and sends a recovery transition (to UP from
DOWN/DEGRADED, with recovery notifications enabled) unconditionally — the
cooldown never applies to it. -/
theorem C3_cooldown_only_for_alerts (cfg : NotificationConfig)
    (svc : EmailNotificationService) (h : NotificationHistory)
    (service : ServiceInfo) (p : ServiceStatus) (now : Int)
    (henabled : cfg.enabled = true)
    (hhist : getHistory svc service.service_name = some h) :
    ((service.status = ServiceStatus.DOWN ∨
        service.status = ServiceStatus.DEGRADED) →
      ¬(p = service.status) →
      now - h.last_notification < cfg.cooldown_minutes * 60 →
      should_send_notification cfg svc now service (some p) = false) ∧
    ((service.status = ServiceStatus.DOWN ∨
        service.status = ServiceStatus.DEGRADED) →
      ¬(p = service.status) →
      ¬(now - h.last_notification < cfg.cooldown_minutes * 60) →
      should_send_notification cfg svc now service (some p) = true) ∧
    ((p = ServiceStatus.DOWN ∨ p = ServiceStatus.DEGRADED) →
      service.status = ServiceStatus.UP →
      cfg.send_recovery_notifications = true →
      should_send_notification cfg svc now service (some p) = true) := by
  refine ⟨fun halert hdiff hcool => ?_, fun halert hdiff hncool => ?_,
    fun hp hup hrec => ?_⟩
  · unfold should_send_notification
    rcases halert with h1 | h1 <;>
      simp [henabled, hhist, h1, hdiff, hcool]
  · unfold should_send_notification
    rcases halert with h1 | h1 <;> rw [h1] at hdiff <;>
      simp [henabled, hhist, h1, hdiff, hncool]
  · unfold should_send_notification
    rcases hp with h1 | h1 <;>
      simp [henabled, hhist, hup, h1, hrec]

/-- Witness for C3: with a 5-minute cooldown and an alert recorded at time 0,
a second alert at 299s is suppressed, the same alert at 301s is sent, and a
recovery at 10s is sent despite the active cooldown. -/
theorem C3_witness :
    should_send_notification cfgW svcHist 299 infoDownW
        (some ServiceStatus.UP) = false ∧
      should_send_notification cfgW svcHist 301 infoDownW
        (some ServiceStatus.UP) = true ∧
      should_send_notification cfgW svcHist 10 infoUpW
        (some ServiceStatus.DOWN) = true := by
  have h1 := C3_cooldown_only_for_alerts cfgW svcHist histW infoDownW
    ServiceStatus.UP 299 rfl (by decide)
  have h2 := C3_cooldown_only_for_alerts cfgW svcHist histW infoDownW
    ServiceStatus.UP 301 rfl (by decide)
  have h3 := C3_cooldown_only_for_alerts cfgW svcHist histW infoUpW
    ServiceStatus.DOWN 10 rfl (by decide)
  exact ⟨h1.1 (by decide) (by decide) (by decide),
    h2.2.1 (by decide) (by decide) (by decide),
    h3.2.2 (by decide) (by decide) (by decide)⟩

/-- A monitored target used by the C7 witness: expects 200 and checks the
body for the substring "ok". -/
def tgtW : MonitoredService :=
  { name := "t", health_url := "http://t/health", check_interval_seconds := 60,
    timeout_seconds := 10, expected_status_code := 200, enabled := true,
    check_response_body := true, expected_body_content := some "ok" }

/-- C7: probe classification. (1) With expected code 200, an HTTP 503
response is DEGRADED with a message containing "503" and "200". (2) A
timeout is DOWN with a message containing the configured timeout. (3) An
expected-code response failing an enabled non-empty body-substring check is
DEGRADED. (4) Otherwise (expected code, body check passing or not
applicable) the result is UP with a message containing the received code. -/
theorem C7_probe_classification (service : MonitoredService) (body : String) :
    (service.expected_status_code = 200 →
      check_service_health service (ProbeOutcome.response 503 body) =
          (ServiceStatus.DEGRADED, "HTTP 503 (expected 200)") ∧
        MsgContains "HTTP 503 (expected 200)" "503" ∧
        MsgContains "HTTP 503 (expected 200)" "200") ∧
    ((check_service_health service ProbeOutcome.timeoutErr).1 =
        ServiceStatus.DOWN ∧
      MsgContains (check_service_health service ProbeOutcome.timeoutErr).2
        (toString service.timeout_seconds)) ∧
    (∀ c, service.check_response_body = true →
      service.expected_body_content = some c → ¬(c = "") →
      strContains body c = false →
      check_service_health service
          (ProbeOutcome.response service.expected_status_code body) =
        (ServiceStatus.DEGRADED, "Response body missing expected content")) ∧
    ((∀ c, service.check_response_body = true →
        service.expected_body_content = some c → ¬(c = "") →
        strContains body c = true) →
      check_service_health service
          (ProbeOutcome.response service.expected_status_code body) =
          (ServiceStatus.UP,
           "Health check passed (" ++
             toString service.expected_status_code ++ ")") ∧
        MsgContains
          ("Health check passed (" ++
            toString service.expected_status_code ++ ")")
          (toString service.expected_status_code)) := by
  refine ⟨fun h200 => ?_, ⟨rfl, ?_⟩, fun c hcrb hebc hcne hsub => ?_,
    fun hpass => ?_⟩
  · have hstr : "HTTP " ++ toString (503 : Nat) ++ " (expected " ++
        toString (200 : Nat) ++ ")" = "HTTP 503 (expected 200)" := by decide
    refine ⟨?_, ⟨"HTTP ", " (expected 200)", by decide⟩,
      ⟨"HTTP 503 (expected ", ")", by decide⟩⟩
    unfold check_service_health
    rw [h200]
    simp [hstr]
  · exact ⟨"Health check timed out after ", "s", rfl⟩
  · have hcempty : c.isEmpty = false := by
      cases hb : c.isEmpty with
      | true => exact absurd ((String.isEmpty_iff c).mp hb) hcne
      | false => rfl
    unfold check_service_health
    simp [hcrb, hebc, hcempty, hsub]
  · unfold check_service_health
    cases hcrb : service.check_response_body with
    | false => exact ⟨by simp [hcrb], ⟨"Health check passed (", ")", rfl⟩⟩
    | true =>
        cases hebc : service.expected_body_content with
        | none => exact ⟨by simp [hcrb, hebc], ⟨"Health check passed (", ")", rfl⟩⟩
        | some c =>
            by_cases hcne : c = ""
            · have hemp : ("" : String).isEmpty = true := by decide
              subst hcne
              refine ⟨by simp [hcrb, hebc, hemp], ⟨"Health check passed (", ")", rfl⟩⟩
            · have hsub := hpass c hcrb hebc hcne
              have hcempty : c.isEmpty = false := by
                cases hb : c.isEmpty with
                | true => exact absurd ((String.isEmpty_iff c).mp hb) hcne
                | false => rfl
              refine ⟨by simp [hcrb, hebc, hcempty, hsub],
                ⟨"Health check passed (", ")", rfl⟩⟩

/-- Witness for C7 on the concrete target `tgtW`: a 503 response, a timeout,
a body missing "ok", and a body containing "ok". -/
theorem C7_witness :
    check_service_health tgtW (ProbeOutcome.response 503 "bad") =
        (ServiceStatus.DEGRADED, "HTTP 503 (expected 200)") ∧
      (check_service_health tgtW ProbeOutcome.timeoutErr).1 =
        ServiceStatus.DOWN ∧
      check_service_health tgtW
          (ProbeOutcome.response tgtW.expected_status_code "bad") =
        (ServiceStatus.DEGRADED, "Response body missing expected content") ∧
      check_service_health tgtW
          (ProbeOutcome.response tgtW.expected_status_code "all ok") =
        (ServiceStatus.UP,
         "Health check passed (" ++ toString tgtW.expected_status_code ++ ")") := by
  have h1 := C7_probe_classification tgtW "bad"
  have h2 := C7_probe_classification tgtW "all ok"
  refine ⟨(h1.1 rfl).1, h1.2.1.1, ?_, ?_⟩
  · exact h1.2.2.1 "ok" rfl rfl (by decide) (by decide)
  · refine (h2.2.2.2 (fun c hcrb hebc hcne => ?_)).1
    have : some "ok" = some c := hebc
    cases this
    decide
